import Mathlib

/-!
Shallow embedding of pyqmmm/combine_xyz_files.py.

The Python module reads xyz trajectory files, asks the user which frames to
take from each, and writes a combined file. We embed each function over the
list of lines the Python file iteration would yield (each line keeps its
trailing newline, as Python file iteration does), and model raised Python
exceptions with an explicit error type. Calls to input() become explicit
string parameters; the files seen by glob become an explicit association
list from filename to file lines.

The Python string primitives (strip, split, int) are written here by
structural recursion over String.data so that every definition evaluates
inside the kernel.
-/

/-- The Python exceptions that the embedded code can raise. UnboundLocalError
is a subclass of NameError and is modelled as nameError. -/
inductive PyError where
  | valueError
  | typeError
  | nameError
  | indexError
  deriving DecidableEq, Repr

/-- Python str.strip() removes these characters at both ends. -/
def py_isspace (c : Char) : Bool :=
  c = ' ' || c = '\t' || c = '\n' || c = '\r' || c = '\x0b' || c = '\x0c'

/-- Python str.strip(): drop whitespace at both ends. -/
def py_strip (s : String) : String :=
  String.mk (((s.data.dropWhile py_isspace).reverse.dropWhile py_isspace).reverse)

/-- Helper of py_split: cut a character list at every separator. -/
def py_split_aux (sep : Char) : List Char → List Char → List String
  | [], acc => [String.mk acc.reverse]
  | c :: rest, acc =>
    if c = sep then String.mk acc.reverse :: py_split_aux sep rest []
    else py_split_aux sep rest (c :: acc)

/-- Python str.split(sep) with a one-character separator: the empty string
splits to a list holding one empty string, like in Python. -/
def py_split (s : String) (sep : Char) : List String :=
  py_split_aux sep s.data []

/-- The decimal value of one digit character, none for a non-digit. -/
def py_digit_val (c : Char) : Option Nat :=
  if c.isDigit then some (c.toNat - 48) else none

/-- Helper of py_nat_digits: accumulate the decimal value of a digit run. -/
def py_digits_go : List Char → Nat → Option Nat
  | [], acc => some acc
  | c :: rest, acc =>
    match py_digit_val c with
    | some d => py_digits_go rest (acc * 10 + d)
    | none => none

/-- The value of a nonempty all-digit character list, none otherwise. -/
def py_nat_digits : List Char → Option Nat
  | [] => none
  | cs => py_digits_go cs 0

/-- The Python builtin int applied to a string: optional surrounding
whitespace, optional sign, then decimal digits; anything else raises
ValueError (modelled by returning none). -/
def py_int? (s : String) : Option Int :=
  match (py_strip s).data with
  | '-' :: rest => (py_nat_digits rest).map (fun n => -(n : Int))
  | '+' :: rest => (py_nat_digits rest).map (fun n => (n : Int))
  | cs => (py_nat_digits cs).map (fun n => (n : Int))

/-- int(s) as an Except value: ValueError when the string does not parse. -/
def py_int (s : String) : Except PyError Int :=
  match py_int? s with
  | some n => Except.ok n
  | none => Except.error PyError.valueError

/-- The Python builtin range(a, b) as the list a, a+1, ..., b-1. -/
def pyRange (a b : Int) : List Int :=
  (List.range (b - a).toNat).map (fun i => a + i)

/-- Subscript sub[0] on a Python list: IndexError on an empty list. -/
def pyFirst : List α → Except PyError α
  | [] => Except.error PyError.indexError
  | a :: _ => Except.ok a

/-- Subscript sub[-1] on a Python list: IndexError on an empty list. -/
def pyLast : List α → Except PyError α
  | [] => Except.error PyError.indexError
  | [a] => Except.ok a
  | _ :: b :: rest => pyLast (b :: rest)

/-!
get_xyz_filenames, lines 34-63 of combine_xyz_files.py.

For each file the loop keeps first_line, atom_count and header_count. On the
first line it stores the stripped line as atom_count and increments
header_count; then, still in the same iteration, it compares the stripped
line against atom_count (which it just set to exactly that string), so the
first line is counted a second time; when header_count exceeds 1 the file is
classified as a trajectory and the scan breaks.
-/

/-- The per-file scan of get_xyz_filenames. Passing first_line as false for
every later iteration matches the Python flag, which is set to False inside
the first iteration and never set back. Returns the final value of the
trajectory flag. -/
def trajectory_scan : List String → Bool → String → Nat → Bool
  | [], _, _, _ => false
  | line :: rest, first_line, atom_count, header_count =>
    let atom_count2 := if first_line then py_strip line else atom_count
    let header_count2 := if first_line then header_count + 1 else header_count
    let header_count3 :=
      if py_strip line == atom_count2 then header_count2 + 1 else header_count2
    if header_count3 > 1 then true
    else trajectory_scan rest false atom_count2 header_count3

/-- Whether get_xyz_filenames classifies a file with these lines as a
trajectory. -/
def is_trajectory (lines : List String) : Bool :=
  trajectory_scan lines true "" 0

/-- get_xyz_filenames over the files the glob would return, in glob order:
the Python code calls sorted(file_list) but discards its result, so the
original order is kept. Returns the names of the files classified as
trajectories. -/
def get_xyz_filenames (files : List (String × List String)) : List String :=
  (files.filter (fun f => is_trajectory f.2)).map Prod.fst

/-!
request_frames, lines 80-92 of combine_xyz_files.py.

The request string is split on the hyphen (not the comma); each piece is
split on the hyphen again (a no-op), every part is passed through int, and
range(sub[0], sub[-1] + 1) is built from the resulting singleton. When the
request is the empty string the body of the if is skipped and the variable
frames is never assigned, so the progress print raises UnboundLocalError. -/

/-- One element of the list comprehension in request_frames:
(lambda sub: range(sub[0], sub[-1] + 1))(list(map(int, ele.split(hyphen)))). -/
def request_token (ele : String) : Except PyError (List Int) := do
  let sub ← (py_split ele '-').mapM py_int
  let first ← pyFirst sub
  let last ← pyLast sub
  pure (pyRange first (last + 1))

/-- request_frames with the value returned by input() made explicit. -/
def request_frames_parse (request : String) : Except PyError (List Int) :=
  if request == "" then
    Except.error PyError.nameError
  else
    match (py_split request '-').mapM request_token with
    | Except.error e => Except.error e
    | Except.ok temp => Except.ok temp.flatten

/-!
multiframe_xyz_to_list, lines 109-137 of combine_xyz_files.py.

The loop parses the first line as the atom count and sets
section_length = count + 2; on each later boundary (line_count equal to
section_length) it resets line_count, clears frame_contents and increments
frame_count, but it never appends the completed frame to xyz_as_list; the
single append happens once, after the loop. The progress print then calls
len(xyz_as_list, xyz_filename) - len takes one argument, so this raises
TypeError before the return statement is reached.
-/

/-- The parsing loop of multiframe_xyz_to_list. The Option Int argument is
section_length, none while first_line is still True. Returns the final
frame_contents and frame_count. int already ignores surrounding whitespace,
so the strip in int(line.strip()) is absorbed by py_int?. -/
def multiframe_loop : List String → Option Int → String → Int → Int →
    Except PyError (String × Int)
  | [], _, frame_contents, _, frame_count => Except.ok (frame_contents, frame_count)
  | line :: rest, none, frame_contents, line_count, frame_count =>
    match py_int? line with
    | none => Except.error PyError.valueError
    | some n =>
      if line_count = n + 2 then
        multiframe_loop rest (some (n + 2)) line 1 (frame_count + 1)
      else
        multiframe_loop rest (some (n + 2)) (frame_contents ++ line) (line_count + 1) frame_count
  | line :: rest, some section_length, frame_contents, line_count, frame_count =>
    if line_count = section_length then
      multiframe_loop rest (some section_length) line 1 (frame_count + 1)
    else
      multiframe_loop rest (some section_length) (frame_contents ++ line) (line_count + 1)
        frame_count

/-- The value of xyz_as_list right after the loop of multiframe_xyz_to_list:
the single append of the final frame_contents. -/
def multiframe_xyz_as_list (lines : List String) : Except PyError (List String) :=
  match multiframe_loop lines none "" 0 0 with
  | Except.error e => Except.error e
  | Except.ok p => Except.ok [p.1]

/-- multiframe_xyz_to_list over the lines of the file. After the loop the
progress print calls len with two arguments, which raises TypeError, so the
return statement is never reached. -/
def multiframe_xyz_to_list (lines : List String) : Except PyError (List String) :=
  match multiframe_xyz_as_list lines with
  | Except.error e => Except.error e
  | Except.ok _xyz_as_list => Except.error PyError.typeError

/-!
combine_xyz_files, lines 140-167 of combine_xyz_files.py.
-/

/-- The list comprehension of lines 157-158: frames of xyz_list whose
enumerate index plus one is contained in requested_frames. Selection is by
membership, in file order, so duplicate and out-of-range requests leave no
trace. -/
def select_requested (xyz_list : List String) (requested_frames : List Int) : List String :=
  ((xyz_list.enum).filter (fun p => requested_frames.contains ((p.1 : Int) + 1))).map Prod.snd

/-- The condition reverse_bool == True of line 161: reverse_bool is the
string returned by input(), and in Python a str never compares equal to the
bool True, so the condition is always false. -/
def py_str_eq_bool_true (_s : String) : Bool := false

/-- Lines 160-162: if the reversal condition held, requested_xyz_list would
be rebound to the result of list.reverse(), which is None (modelled as
none); otherwise the list is kept as is. -/
def apply_reverse (reverse_input : String) (l : List String) : Option (List String) :=
  if py_str_eq_bool_true reverse_input then none else some l

/-- The per-file loop of combine_xyz_files, lines 154-163. reqs and revs are
the successive answers input() returns for the frame request and the
reversal question; i is the loop iteration index. The final Option is the
loop variable xyz_list, none while it is still unbound. Returns
combined_xyz_list and xyz_list as left by the loop. -/
def combine_loop (files : List (String × List String)) (reqs revs : List String) :
    List String → Nat → List String → Option (List String) →
      Except PyError (List String × Option (List String))
  | [], _, combined_xyz_list, xyz_list => Except.ok (combined_xyz_list, xyz_list)
  | name :: rest, i, combined_xyz_list, _xyz_list => do
    let lines := (files.lookup name).getD []
    let xyz_list ← multiframe_xyz_to_list lines
    let _frames ← request_frames_parse (reqs.getD i "")
    -- line 156 subscripts the returned list with the tuple (1, 2, 3, 8);
    -- a Python list subscripted with a tuple raises TypeError
    let requested_frames ← (Except.error PyError.typeError : Except PyError (List Int))
    let requested_xyz_list := select_requested xyz_list requested_frames
    let requested_xyz_list ←
      (match apply_reverse (revs.getD i "") requested_xyz_list with
      | some l => Except.ok l
      -- combined_xyz_list += None would raise TypeError
      | none => (Except.error PyError.typeError : Except PyError (List String)))
    combine_loop files reqs revs rest (i + 1) (combined_xyz_list ++ requested_xyz_list)
      (some xyz_list)

/-- What a run of combine_xyz_files leaves behind: the files it wrote
(name and full contents) and the normal or exceptional outcome. -/
structure RunResult where
  written : List (String × String)
  outcome : Except PyError Unit
  deriving Repr

/-- combine_xyz_files over the files the glob finds and the user answers.
After the loop, with open as w creates (or truncates) combined.xyz before
anything is written; the write loop then iterates xyz_list - not
combined_xyz_list - so it writes the last file frame list, and raises
NameError when no trajectory was found because xyz_list was never
assigned, leaving the created file empty. -/
def combine_xyz_files (files : List (String × List String)) (reqs revs : List String) :
    RunResult :=
  match combine_loop files reqs revs (get_xyz_filenames files) 0 [] none with
  | Except.error e => ⟨[], Except.error e⟩
  | Except.ok (_combined_xyz_list, none) =>
    ⟨[("combined.xyz", "")], Except.error PyError.nameError⟩
  | Except.ok (_combined_xyz_list, some xyz_list) =>
    ⟨[("combined.xyz", String.join xyz_list)], Except.ok ()⟩

/-! Concrete inputs used by the theorems below. -/

/-- A two-frame trajectory of one atom per frame, as the lines Python file
iteration yields. -/
def twoFrameLines : List String :=
  ["1\n", "comment1\n", "H 0.0 0.0 0.0\n",
   "1\n", "comment2\n", "H 0.0 0.0 0.0\n"]

/-- A five-frame trajectory of one atom per frame. -/
def fiveFrameLines : List String :=
  ["1\n", "c1\n", "H 0.0 0.0 0.0\n",
   "1\n", "c2\n", "H 0.1 0.0 0.0\n",
   "1\n", "c3\n", "H 0.2 0.0 0.0\n",
   "1\n", "c4\n", "H 0.3 0.0 0.0\n",
   "1\n", "c5\n", "H 0.4 0.0 0.0\n"]

/-- A three-frame trajectory of one atom per frame. -/
def threeFrameLines : List String :=
  ["1\n", "b1\n", "H 0.0 0.0 0.0\n",
   "1\n", "b2\n", "H 0.1 0.0 0.0\n",
   "1\n", "b3\n", "H 0.2 0.0 0.0\n"]

/-! Helper lemmas about the multiframe parsing loop. -/

/-- Once section_length is set, the loop of multiframe_xyz_to_list can no
longer fail: int is only called while first_line is True. -/
lemma multiframe_loop_some_ok (lines : List String) :
    ∀ (sl : Int) (fc : String) (lc k : Int),
      ∃ p, multiframe_loop lines (some sl) fc lc k = Except.ok p := by
  induction lines with
  | nil => intro sl fc lc k; exact ⟨(fc, k), rfl⟩
  | cons line rest ih =>
    intro sl fc lc k
    simp only [multiframe_loop]
    split
    · exact ih sl line 1 (k + 1)
    · exact ih sl (fc ++ line) (lc + 1) k

/-- When the loop completes, multiframe_xyz_to_list raises TypeError at the
progress print. -/
lemma multiframe_to_list_of_loop_ok (lines : List String) (p : String × Int)
    (h : multiframe_loop lines none "" 0 0 = Except.ok p) :
    multiframe_xyz_to_list lines = Except.error PyError.typeError := by
  simp [multiframe_xyz_to_list, multiframe_xyz_as_list, h]

/-- When the loop itself raises, multiframe_xyz_to_list propagates that
exception. -/
lemma multiframe_to_list_of_loop_error (lines : List String) (e : PyError)
    (h : multiframe_loop lines none "" 0 0 = Except.error e) :
    multiframe_xyz_to_list lines = Except.error e := by
  simp [multiframe_xyz_to_list, multiframe_xyz_as_list, h]

/-- C1: the claim says multiframe_xyz_to_list returns k FrameBlocks of n+2
lines whose concatenation reproduces the input. On a well-formed two-frame
one-atom file the function instead raises TypeError (the progress print
calls len with two arguments), and the list it accumulated before raising
holds a single block - the loop discards every completed frame except the
last, so no round-trip is possible. -/
theorem multiframe_drops_frames_and_raises :
    multiframe_xyz_to_list twoFrameLines = Except.error PyError.typeError ∧
    multiframe_xyz_as_list twoFrameLines =
      Except.ok ["1\ncomment2\nH 0.0 0.0 0.0\n"] :=
  ⟨rfl, rfl⟩

/-- C2: the claim says the written output is the concatenation of the
per-file selections, each block verbatim. Running the combiner on
trajectories A.xyz (five frames) and B.xyz (three frames) with requests 1-3
unreversed and 1-2 reversed raises TypeError inside multiframe_xyz_to_list
on the first file and writes no file at all. -/
theorem combine_crashes_before_writing :
    combine_xyz_files [("A.xyz", fiveFrameLines), ("B.xyz", threeFrameLines)]
        ["1-3", "1-2"] ["", "True"] =
      ⟨[], Except.error PyError.typeError⟩ :=
  rfl

/-- C3: the claim says a single-frame file (no repeated header line) is
excluded from the candidate list. The scan counts the first line twice -
once when initializing atom_count and again by the equality test on the same
line - so a single-frame file is classified as a trajectory and returned. -/
theorem single_frame_file_included :
    is_trajectory ["1\n", "comment\n", "H 0.0 0.0 0.0\n"] = true ∧
    get_xyz_filenames [("single.xyz", ["1\n", "comment\n", "H 0.0 0.0 0.0\n"])] =
      ["single.xyz"] :=
  ⟨rfl, rfl⟩

/-- C4: the claim says parsing the expression 1,3-5,9 yields [1,3,4,5,9] and
2-2 yields [2]. The code splits the expression on the hyphen instead of the
comma, so int is applied to the piece 1,3 and raises ValueError, and 2-2
becomes the two tokens 2 and 2, yielding [2,2]. -/
theorem range_parse_splits_on_hyphen :
    request_frames_parse "1,3-5,9" = Except.error PyError.valueError ∧
    request_frames_parse "2-2" = Except.ok [2, 2] :=
  ⟨rfl, rfl⟩

/-- C5: the claim says frames are gathered in the order listed in the spec,
duplicates preserved, and the gathered sequence is reversed when requested.
The selection comprehension walks the file in file order and keeps one copy
per matching index ([3,1,3] yields the first and third frames in file
order), and the reversal condition compares the input string with the bool
True, which is always false, so answering True leaves the gathered sequence
unreversed instead of producing [f5,f4,f3,f1]. -/
theorem selector_ignores_order_duplicates_and_reversal :
    select_requested ["f1", "f2", "f3", "f4", "f5"] [1, 3, 4, 5] =
      ["f1", "f3", "f4", "f5"] ∧
    apply_reverse "True" ["f1", "f3", "f4", "f5"] = some ["f1", "f3", "f4", "f5"] ∧
    select_requested ["f1", "f2", "f3"] [3, 1, 3] = ["f1", "f3"] :=
  ⟨rfl, rfl, rfl⟩

/-- C6: the claim says requesting frame 6 from a five-frame file fails with
IndexError. The selection comprehension silently drops the out-of-range
index (requesting [6] from five frames selects nothing), and a full run on
such a file raises TypeError (first inside multiframe_xyz_to_list, and the
tuple subscript of line 156 would also raise TypeError), never IndexError. -/
theorem out_of_range_silently_dropped :
    select_requested ["f1", "f2", "f3", "f4", "f5"] [6] = [] ∧
    combine_xyz_files [("a.xyz", fiveFrameLines)] ["6"] [""] =
      ⟨[], Except.error PyError.typeError⟩ :=
  ⟨rfl, rfl⟩

/-- C7: the claim says the expression 5-3 fails with RangeParseError. The
code splits on the hyphen, making 5 and 3 separate singleton tokens, and
returns [5,3] without any error. -/
theorem descending_range_returns_both_bounds :
    request_frames_parse "5-3" = Except.ok [5, 3] :=
  rfl

/-- C8: the claim says the empty expression parses to an empty selection
without error. With an empty request the variable frames is never assigned,
so the progress print raises UnboundLocalError, a NameError. -/
theorem empty_request_raises_name_error :
    request_frames_parse "" = Except.error PyError.nameError :=
  rfl

/-- C9: the claim says a run in which no file contributes any frames fails
with EmptyCombinationError and writes no output file. With no trajectory
found, the code creates combined.xyz (open in write mode truncates or
creates it) and then raises NameError because xyz_list was never assigned,
leaving an empty output file behind. -/
theorem empty_combination_writes_file_and_raises :
    combine_xyz_files [] [] [] =
      ⟨[("combined.xyz", "")], Except.error PyError.nameError⟩ :=
  rfl

/-- C10: multiframe_xyz_to_list never returns normally: for every input it
raises before its return statement - ValueError when the first line does not
parse as an integer, and otherwise TypeError at the progress print, whose
len call receives two arguments. -/
theorem multiframe_never_returns (lines : List String) :
    multiframe_xyz_to_list lines =
      Except.error
        (match lines with
        | [] => PyError.typeError
        | line :: _ =>
          match py_int? line with
          | none => PyError.valueError
          | some _ => PyError.typeError) := by
  cases lines with
  | nil => exact multiframe_to_list_of_loop_ok [] ("", 0) rfl
  | cons line rest =>
    cases h : py_int? line with
    | none =>
      show multiframe_xyz_to_list (line :: rest) =
        Except.error
          (match py_int? line with
          | none => PyError.valueError
          | some _ => PyError.typeError)
      rw [h]
      have hl : multiframe_loop (line :: rest) none "" 0 0 =
          Except.error PyError.valueError := by
        simp [multiframe_loop, h]
      exact multiframe_to_list_of_loop_error _ _ hl
    | some n =>
      show multiframe_xyz_to_list (line :: rest) =
        Except.error
          (match py_int? line with
          | none => PyError.valueError
          | some _ => PyError.typeError)
      rw [h]
      have hl : ∃ p, multiframe_loop (line :: rest) none "" 0 0 = Except.ok p := by
        simp only [multiframe_loop, h]
        split
        · exact multiframe_loop_some_ok rest (n + 2) line 1 (0 + 1)
        · exact multiframe_loop_some_ok rest (n + 2) ("" ++ line) (0 + 1) 0
      obtain ⟨p, hp⟩ := hl
      exact multiframe_to_list_of_loop_ok _ p hp
